import Mathlib

/-!
Shallow embedding of the resilient-sync core of the Health-Data-Sync repository
(src/utils.py, src/advanced_utils.py, src/main.py), together with theorems
settling the spec claims about it.

Modelling conventions:
* Python floats are modelled by exact rationals; numpy population standard
  deviation (np.std) involves a real square root, so the development is
  parameterized by an arbitrary function npStd : List Rat → Rat — none of the
  settled claims depend on its values.
* datetime instants are integers (microseconds in the RateLimiter component,
  which is the only place sub-second resolution matters; seconds elsewhere).
* A raised Python exception is an Except.error carrying the message.
* String formatting of numbers (f-strings) is an abstract injective rendering;
  no claim inspects the formatted text.
-/

/-- The four logical sources tracked by HealthSync.last_sync_status
(src/main.py lines 59-64). -/
inductive SourceId where
  | withings_weight
  | withings_sleep
  | omron_bp
  | omron_hr
deriving DecidableEq

namespace Utils

/-- Models the body of the for-loop of retry_on_exception (src/utils.py lines
29-50).  op i is the outcome of the i-th invocation of the wrapped function
(0-indexed): a returned value or a raised exception message.  The arguments are
the current attempt index, the number of loop iterations left, and the current
value of last_exception (None before the first failure).  Returns the overall
outcome (Except.error models the final raise of last_exception — error none is
Python raising None when retries = 0), the number of invocations performed, and
the list of time.sleep durations in order. -/
def retryAux {E A : Type} (op : Nat → Except E A) (delay : ℚ) :
    Nat → Nat → Option E → Except (Option E) A × Nat × List ℚ
  | _, 0, last => (Except.error last, 0, [])
  | attempt, n + 1, _ =>
    match op attempt with
    | Except.ok a => (Except.ok a, 1, [])
    | Except.error e =>
      let r := retryAux op delay (attempt + 1) n (some e)
      -- the code sleeps delay * 2 ** attempt only when attempt < retries - 1,
      -- i.e. when further iterations remain (n > 0)
      if n = 0 then (r.1, r.2.1 + 1, r.2.2)
      else (r.1, r.2.1 + 1, delay * 2 ^ attempt :: r.2.2)

/-- retry_on_exception(retries, delay) applied to an operation: the decorated
call (src/utils.py lines 29-50). -/
def retry_on_exception {E A : Type} (op : Nat → Except E A) (retries : Nat)
    (delay : ℚ) : Except (Option E) A × Nat × List ℚ :=
  retryAux op delay 0 retries none

/-- Microseconds per second (Python datetime/timedelta resolution). -/
def usecPerSec : Int := 1000000

/-- Models timedelta.seconds for a nonnegative delta shorter than one day: the
whole-seconds component of the duration, i.e. the microsecond count divided by
10^6 rounding toward zero (equal to the floor on nonnegative input). -/
def tdSeconds (d : Int) : Int := d / usecPerSec

/-- State of one RateLimiter instance (src/utils.py lines 6-9): the configured
limit and the recorded call timestamps (microseconds), oldest first. -/
structure RateLimiterState where
  calls_per_minute : Nat
  calls : List Int
deriving DecidableEq

/-- One acquisition through the RateLimiter wrapper (src/utils.py lines 11-27)
at instant now (microseconds): drop timestamps at least one minute old, sleep
when the remaining count has reached the limit, then record the pre-sleep
instant now.  Returns the new state and the whole number of seconds slept
(the time.sleep argument, 0 when no sleep happens).  The empty-list fallback in
the match is unreachable for calls_per_minute >= 1 (Python would raise
IndexError on calls[0] there). -/
def RateLimiter.acquire (st : RateLimiterState) (now : Int) :
    RateLimiterState × Int :=
  let kept := st.calls.filter fun t => now - t < 60 * usecPerSec
  let sleep_time : Int :=
    if st.calls_per_minute ≤ kept.length then
      match kept with
      | [] => 0
      | t0 :: _ => 60 - tdSeconds (now - t0)
    else 0
  let slept := if 0 < sleep_time then sleep_time else 0
  ({ st with calls := kept ++ [now] }, slept)

/-- The RateLimiter instances the program actually creates for the four
logical sources: get_weight_data and get_sleep_data each carry their own
decorator (withings_handler.py lines 23 and 46), while both Omron fetches go
through _make_request and hence share its single decorator instance
(omron_handler.py lines 18-19; get_blood_pressure_data and get_heart_rate_data
have no limiter of their own, lines 41-45 and 68-72). -/
inductive LimiterId where
  | withingsWeightLimiter
  | withingsSleepLimiter
  | omronRequestLimiter
deriving DecidableEq

/-- The limiter instance a logical source's fetch acquires: omron_bp and
omron_hr map to the same shared instance. -/
def limiterOf : SourceId → LimiterId
  | SourceId.withings_weight => LimiterId.withingsWeightLimiter
  | SourceId.withings_sleep => LimiterId.withingsSleepLimiter
  | SourceId.omron_bp => LimiterId.omronRequestLimiter
  | SourceId.omron_hr => LimiterId.omronRequestLimiter

/-- An acquisition for source s against the program's limiter instances: the
state of the limiter s maps to is updated, every other instance is
untouched. -/
def RateLimiter.acquireFor (states : LimiterId → RateLimiterState)
    (s : SourceId) (now : Int) : (LimiterId → RateLimiterState) × Int :=
  let r := RateLimiter.acquire (states (limiterOf s)) now
  (fun j => if j = limiterOf s then r.1 else states j, r.2)

end Utils

namespace AdvancedUtils

/-- HealthTrend dataclass (src/advanced_utils.py lines 12-17). -/
structure HealthTrend where
  metric_type : String
  trend : String
  change_percentage : ℚ
  analysis : String
deriving DecidableEq

/-- Mean of a float series (pandas Series.mean / np.mean) in exact rational
arithmetic; only ever applied to nonempty series by the code. -/
def pyMean (l : List ℚ) : ℚ := l.sum / l.length

/-- Python min() on a nonempty list; the empty fallback is unreachable in the
code (Python would raise ValueError). -/
def pyMin (l : List ℚ) : ℚ :=
  match l with
  | [] => 0
  | x :: xs => xs.foldl min x

/-- Python max() on a nonempty list; the empty fallback is unreachable in the
code (Python would raise ValueError). -/
def pyMax (l : List ℚ) : ℚ :=
  match l with
  | [] => 0
  | x :: xs => xs.foldl max x

/-- Models pandas .tail(3) and Python slicing xs[-3:]: the last min(n, length)
elements. -/
def lastN (n : Nat) (l : List α) : List α := l.drop (l.length - n)

/-- Abstract rendering of a float into an f-string (for example the :.1f
formats); no claim inspects the produced text. -/
def fmtQ (q : ℚ) : String := toString q

/-- The function body that @lru_cache wraps in DataAnalyzer.analyze_weight_trend
(src/advanced_utils.py lines 24-44), applied to the chronologically ordered
value series (the claims quantify over chronologically sorted input, on which
the sort_values step is the identity).  In the program this body is never
reached: the decorator raises first (see analyze_weight_trend below). -/
def analyze_weight_trend_body (weight_data : List ℚ) : HealthTrend :=
  if weight_data.isEmpty then
    ⟨"weight", "neutral", 0, "Insufficient data"⟩
  else if weight_data.length < 2 then
    ⟨"weight", "neutral", 0, "Need more data points"⟩
  else
    let recent_avg := pyMean (lastN 3 weight_data)
    let past_avg := pyMean (weight_data.take 3)
    let change := (recent_avg - past_avg) / past_avg * 100
    let trend :=
      if change > 1 then "increasing"
      else if change < -1 then "decreasing"
      else "stable"
    ⟨"weight", trend, change,
      "Weight has " ++ trend ++ " by " ++ fmtQ (abs change) ++ "% over the period"⟩

/-- DataAnalyzer.analyze_weight_trend as callable in the program
(src/advanced_utils.py line 23): the @lru_cache(maxsize=100) wrapper hashes the
argument tuple before the body can run, and every call site in this repository
passes a Python list — an unhashable type — so the call always raises
TypeError and analyze_weight_trend_body is never executed.  The raise does not
depend on the argument's contents (an empty list is just as unhashable). -/
def analyze_weight_trend (_weight_data : List ℚ) : Except String HealthTrend :=
  Except.error "TypeError: unhashable type: list"

/-- A blood-pressure reading value: the dict with systolic and diastolic
components built by the Omron handler. -/
structure BpValue where
  systolic : ℚ
  diastolic : ℚ
deriving DecidableEq

/-- DataAnalyzer.analyze_blood_pressure_trend (src/advanced_utils.py lines
46-73), applied to the chronologically ordered value series (sort_values is the
identity on sorted input, as the claims assume). -/
def analyze_blood_pressure_trend (bp_data : List BpValue) : HealthTrend :=
  if bp_data.isEmpty then
    ⟨"blood_pressure", "neutral", 0, "Insufficient data"⟩
  else if bp_data.length < 2 then
    ⟨"blood_pressure", "neutral", 0, "Need more data points"⟩
  else
    let systolic_data := bp_data.map (·.systolic)
    let diastolic_data := bp_data.map (·.diastolic)
    let sys_change := pyMean (lastN 3 systolic_data) - pyMean (systolic_data.take 3)
    let dia_change := pyMean (lastN 3 diastolic_data) - pyMean (diastolic_data.take 3)
    let trend :=
      if abs sys_change > 10 ∨ abs dia_change > 10 then "concerning"
      else if abs sys_change > 5 ∨ abs dia_change > 5 then "notable"
      else "stable"
    ⟨"blood_pressure", trend, max (abs sys_change) (abs dia_change),
      "BP trend: Systolic " ++ fmtQ sys_change ++ ", Diastolic " ++ fmtQ dia_change⟩

/-- Cache key descriptor as built by HealthSync._safe_sync: the data-type
identity and the ISO calendar date.  CacheManager._generate_key hashes the
canonical JSON dump of this descriptor with md5; that derivation is
deterministic, so the fingerprint is modelled by the canonical descriptor
itself. -/
abbrev CacheKey := String × String

/-- CacheManager.get_cached_data (src/advanced_utils.py lines 85-96) in the
local-tier-only configuration (redis_client is None when REDIS_URL is unset).
The local dict is an association list in which the newest binding for a key
shadows older ones. -/
def get_cached_data {α : Type} (local_cache : List (CacheKey × α))
    (key_data : CacheKey) : Option α :=
  (local_cache.find? fun p => p.1 == key_data).map Prod.snd

/-- Outcome of the remote-tier setex call in CacheManager.cache_data: no remote
tier configured, remote write succeeded, or remote write raised. -/
inductive RemoteWrite where
  | noRemote : RemoteWrite
  | ok : RemoteWrite
  | raised (e : String) : RemoteWrite
deriving DecidableEq

/-- CacheManager.cache_data (src/advanced_utils.py lines 98-112): when a remote
tier is configured, setex runs first and has no exception handler in the
source, so a raised remote write propagates to the caller before the local
write can run; otherwise the value is written to the local dict.  Returns the
new local tier or the propagated exception. -/
def cache_data {α : Type} (remote : RemoteWrite)
    (local_cache : List (CacheKey × α)) (key_data : CacheKey) (value : α) :
    Except String (List (CacheKey × α)) :=
  match remote with
  | RemoteWrite.raised e => Except.error e
  | _ => Except.ok ((key_data, value) :: local_cache)

/-- A weight entry as produced by the Withings handler: the HealthMetric dict
fields the core reads (value in kg, timestamp in seconds). -/
structure WeightEntry where
  value : ℚ
  timestamp : Int
deriving DecidableEq

/-- A blood-pressure entry: value is the systolic/diastolic dict. -/
structure BpEntry where
  value : BpValue
  timestamp : Int
deriving DecidableEq

/-- A heart-rate entry (value in bpm). -/
structure HrEntry where
  value : ℚ
  timestamp : Int
deriving DecidableEq

/-- A sleep entry: the state label plus the start and end instants (seconds);
the end field is named stop because end is a Lean keyword. -/
structure SleepEntry where
  value : String
  start : Int
  stop : Int
deriving DecidableEq

/-- A dynamically typed Python value, as far as the summary cache-age check
needs to distinguish: a datetime instant (seconds) or an ISO-format string. -/
inductive PyVal where
  | dt (t : Int)
  | str (s : String)
deriving DecidableEq

/-- Models datetime.isoformat(): an injective string rendering of the
instant. -/
def pyIsoformat (t : Int) : String := toString t

/-- The weight block of a health summary (src/advanced_utils.py lines
131-135). -/
structure WeightSummary where
  trend : String
  analysis : String
  latest : Option ℚ
deriving DecidableEq

/-- The blood-pressure block of a health summary (lines 139-143). -/
structure BpSummary where
  trend : String
  analysis : String
  latest : Option BpValue
deriving DecidableEq

/-- The heart-rate block of a health summary (lines 149-154). -/
structure HrSummary where
  latest : ℚ
  variability : ℚ
  min : ℚ
  max : ℚ
deriving DecidableEq

/-- The sleep block of a health summary (lines 165-169). -/
structure SleepSummary where
  average_duration : ℚ
  quality : String
  consistency : ℚ
deriving DecidableEq

/-- The metrics mapping of a health summary; a key absent from the Python dict
is a none field. -/
structure SummaryMetrics where
  weight : Option WeightSummary
  blood_pressure : Option BpSummary
  heart_rate : Option HrSummary
  sleep : Option SleepSummary
deriving DecidableEq

/-- A health summary as built by HealthMetricsAggregator.generate_health_summary:
the timestamp field holds datetime.now().isoformat(), hence a string-typed
Python value. -/
structure AggSummary where
  timestamp : PyVal
  metrics : SummaryMetrics
deriving DecidableEq

/-- HealthMetricsAggregator.generate_health_summary (src/advanced_utils.py
lines 118-171).  Its first analysis step (line 130) calls the
lru_cache-decorated analyze_weight_trend with the list argument, which raises
TypeError before anything is built, so the ok branch below — the faithful
translation of the rest of the body — is unreachable in the program.  npStd
abstracts np.std (population standard deviation); now is the instant of the
call. -/
def generate_health_summary (npStd : List ℚ → ℚ) (now : Int)
    (weight_data : List WeightEntry) (bp_data : List BpEntry)
    (hr_data : List HrEntry) (sleep_data : List SleepEntry) :
    Except String AggSummary :=
  match analyze_weight_trend (weight_data.map (·.value)) with
  | Except.error e => Except.error e
  | Except.ok weight_trend =>
    let bp_trend := analyze_blood_pressure_trend (bp_data.map (·.value))
    let hr_metrics : Option HrSummary :=
      match hr_data with
      | [] => none
      | h :: hs =>
        let hr_values := (h :: hs).map (·.value)
        some { latest := ((h :: hs).getLastD h).value
               variability := if 1 < hr_values.length then npStd hr_values else 0
               min := pyMin hr_values
               max := pyMax hr_values }
    let sleep_metrics : Option SleepSummary :=
      match sleep_data with
      | [] => none
      | x :: xs =>
        let sleep_durations :=
          (x :: xs).map fun s => ((s.stop - s.start : Int) : ℚ) / 3600
        some { average_duration := pyMean sleep_durations
               quality := ((x :: xs).getLastD x).value
               consistency := npStd sleep_durations }
    Except.ok
      { timestamp := PyVal.str (pyIsoformat now)
        metrics :=
          { weight := some { trend := weight_trend.trend
                             analysis := weight_trend.analysis
                             latest := weight_data.getLast?.map (·.value) }
            blood_pressure := some { trend := bp_trend.trend
                                     analysis := bp_trend.analysis
                                     latest := bp_data.getLast?.map (·.value) }
            heart_rate := hr_metrics
            sleep := sleep_metrics } }

/-- NotificationManager.check_health_metrics (src/advanced_utils.py lines
177-202): derive the ordered alert list from a summary. -/
def check_health_metrics (summary : AggSummary) : List String :=
  let bp_alerts :=
    match summary.metrics.blood_pressure with
    | some bp =>
      if bp.trend = "concerning" then
        ["⚠️ Concerning blood pressure trend: " ++ bp.analysis]
      else []
    | none => []
  let hr_alerts :=
    match summary.metrics.heart_rate with
    | some hr =>
      if hr.max > 100 then
        ["⚠️ High heart rate detected: " ++ fmtQ hr.max ++ " bpm"]
      else if hr.variability > 20 then
        ["ℹ️ High heart rate variability: " ++ fmtQ hr.variability]
      else []
    | none => []
  let sleep_alerts :=
    match summary.metrics.sleep with
    | some s =>
      (if s.average_duration < 6 then
        ["⚠️ Low sleep duration: " ++ fmtQ s.average_duration ++ " hours"]
       else []) ++
      (if s.consistency > 2 then
        ["ℹ️ Inconsistent sleep schedule detected"]
       else [])
    | none => []
  bp_alerts ++ hr_alerts ++ sleep_alerts

end AdvancedUtils

namespace Main

open AdvancedUtils

/-- One entry of HealthSync.last_sync_status (src/main.py lines 145-149 and
156-160): the literal status, the instant the entry was written, and the error
detail (None on success). -/
structure SyncStatus where
  status : String
  timestamp : Int
  error : Option String
deriving DecidableEq

/-- The last_sync_status dict: one optional entry per logical source, all None
after __init__ (src/main.py lines 59-64). -/
structure SyncStatuses where
  withings_weight : Option SyncStatus
  withings_sleep : Option SyncStatus
  omron_bp : Option SyncStatus
  omron_hr : Option SyncStatus
deriving DecidableEq

/-- Look up the last_sync_status entry of one source. -/
def statusOf (st : SyncStatuses) : SourceId → Option SyncStatus
  | SourceId.withings_weight => st.withings_weight
  | SourceId.withings_sleep => st.withings_sleep
  | SourceId.omron_bp => st.omron_bp
  | SourceId.omron_hr => st.omron_hr

/-- HealthSync._safe_sync (src/main.py lines 134-161), in the local-tier-only
cache configuration (REDIS_URL unset).  fetch is the outcome of the sync_func
call — its data, or the message of the exception it raised after exhausting its
own retries.  now is the instant of the call, prev the source's current
last_sync_status entry.  Returns the data handed back to the caller, the new
last_sync_status entry for this source, the new cache tier, and whether the
network fetch ran (False on a cache hit, whose truthiness test is Python list
truthiness). -/
def safe_sync {α : Type} (now : Int) (cache : List (CacheKey × List α))
    (key : CacheKey) (fetch : Except String (List α))
    (prev : Option SyncStatus) :
    List α × Option SyncStatus × List (CacheKey × List α) × Bool :=
  let fetched : List α × Option SyncStatus × List (CacheKey × List α) × Bool :=
    match fetch with
    | Except.ok d => (d, some ⟨"success", now, none⟩, (key, d) :: cache, true)
    | Except.error e => ([], some ⟨"error", now, some e⟩, cache, true)
  match get_cached_data cache key with
  | some d => if d.isEmpty then fetched else (d, prev, cache, false)
  | none => fetched

/-- The outcomes of one cycle's four source fetches (what each sync_func call
would produce if executed). -/
structure FetchOutcomes where
  weight : Except String (List WeightEntry)
  sleep : Except String (List SleepEntry)
  bp : Except String (List BpEntry)
  hr : Except String (List HrEntry)

/-- The latest_metrics dict (src/main.py lines 185-193). -/
structure LatestMetrics where
  weight : Option WeightEntry
  blood_pressure : Option BpEntry
  heart_rate : Option HrEntry
  sleep : Option SleepEntry
deriving DecidableEq

/-- The mutable state of a HealthSync instance that the sync cycle touches.
The single Python cache dict is split into four typed tiers; this is faithful
because every key embeds the data-type string, so the four key families never
collide. -/
structure HealthSyncState where
  weight_cache : List (CacheKey × List WeightEntry)
  sleep_cache : List (CacheKey × List SleepEntry)
  bp_cache : List (CacheKey × List BpEntry)
  hr_cache : List (CacheKey × List HrEntry)
  last_sync_status : SyncStatuses
  latest_metrics : LatestMetrics
  cached_summary : Option AggSummary
  active_alerts : List String

/-- HealthSync._send_alert_notifications (src/main.py lines 231-248): returns
whether anything is sent — the function returns immediately when the active
alert list is empty, and otherwise sends a message per alert to the configured
channels (Google Home is enabled by default). -/
def send_alert_notifications (active_alerts : List String) : Bool :=
  !active_alerts.isEmpty

/-- Lines 199-204 of src/main.py: compare the newly derived alert list with the
active one; on any difference, replace the active set and call
_send_alert_notifications.  Returns the new active set and whether a
notification went out. -/
def update_alerts (active_alerts new_alerts : List String) :
    List String × Bool :=
  if new_alerts ≠ active_alerts then
    (new_alerts, send_alert_notifications new_alerts)
  else (active_alerts, false)

/-- HealthSync.sync_health_data (src/main.py lines 163-229) up to and
including the alert step; the per-event calendar writes that follow only count
successes and cannot change this state.  now is the cycle instant (seconds),
dateStr the current ISO calendar date, f the would-be outcomes of the four
fetches.  Returns the state of the instance when the cycle ends together with
the cycle outcome: the summary and whether an alert notification was sent, or
the exception the summary call raises — which the handler at line 228
re-raises, aborting the cycle.  Mutations made before the raise (caches,
statuses, latest metrics) persist on the instance and appear in the returned
state; the alert diff at lines 199-204 runs only when the summary call
returns. -/
def sync_health_data (npStd : List ℚ → ℚ) (now : Int) (dateStr : String)
    (f : FetchOutcomes) (st : HealthSyncState) :
    HealthSyncState × Except String (AggSummary × Bool) :=
  let w := safe_sync now st.weight_cache ("withings_weight", dateStr) f.weight
    st.last_sync_status.withings_weight
  let s := safe_sync now st.sleep_cache ("withings_sleep", dateStr) f.sleep
    st.last_sync_status.withings_sleep
  let b := safe_sync now st.bp_cache ("omron_bp", dateStr) f.bp
    st.last_sync_status.omron_bp
  let h := safe_sync now st.hr_cache ("omron_hr", dateStr) f.hr
    st.last_sync_status.omron_hr
  let weight_data := w.1
  let sleep_data := s.1
  let bp_data := b.1
  let hr_data := h.1
  let lm0 := st.latest_metrics
  let lm1 := if weight_data.isEmpty then lm0
    else { lm0 with weight := weight_data.getLast? }
  let lm2 := if bp_data.isEmpty then lm1
    else { lm1 with blood_pressure := bp_data.getLast? }
  let lm3 := if hr_data.isEmpty then lm2
    else { lm2 with heart_rate := hr_data.getLast? }
  let lm4 := if sleep_data.isEmpty then lm3
    else { lm3 with sleep := sleep_data.getLast? }
  let st1 := { st with
      weight_cache := w.2.2.1
      sleep_cache := s.2.2.1
      bp_cache := b.2.2.1
      hr_cache := h.2.2.1
      last_sync_status := ⟨w.2.1, s.2.1, b.2.1, h.2.1⟩
      latest_metrics := lm4 }
  match generate_health_summary npStd now weight_data bp_data hr_data
      sleep_data with
  | Except.error e => (st1, Except.error e)
  | Except.ok summary =>
    let new_alerts := check_health_metrics summary
    let ua := update_alerts st.active_alerts new_alerts
    ({ st1 with active_alerts := ua.1 }, Except.ok (summary, ua.2))

/-- Subtraction of two dynamically typed Python values as performed by
(datetime.now() - x).total_seconds() in src/main.py line 120: defined when x is
a datetime, a raised TypeError when x is a string. -/
def total_seconds_sub : PyVal → PyVal → Except String Int
  | PyVal.dt a, PyVal.dt b => Except.ok (a - b)
  | _, _ => Except.error "TypeError: unsupported operand type for -"

/-- HealthSync.generate_health_summary (src/main.py lines 117-132).  When a
cached summary exists, its age is computed by subtracting the summary's stored
timestamp field from datetime.now() (line 120); otherwise the fresh path
fetches the four series through _safe_sync (weight, bp, hr, sleep order, lines
125-128) and calls the aggregator, which raises TypeError before a summary can
be built — so the branch that stores a cached summary is unreachable and
cached_summary is never populated.  Returns the state of the instance when the
call ends (mutations made by _safe_sync before the raise persist) together
with the outcome: the summary, or the exception that propagates. -/
def generate_health_summary (npStd : List ℚ → ℚ) (now : Int) (dateStr : String)
    (f : FetchOutcomes) (st : HealthSyncState) :
    HealthSyncState × Except String AggSummary :=
  let fresh : HealthSyncState × Except String AggSummary :=
    let w := safe_sync now st.weight_cache ("withings_weight", dateStr)
      f.weight st.last_sync_status.withings_weight
    let b := safe_sync now st.bp_cache ("omron_bp", dateStr) f.bp
      st.last_sync_status.omron_bp
    let h := safe_sync now st.hr_cache ("omron_hr", dateStr) f.hr
      st.last_sync_status.omron_hr
    let s := safe_sync now st.sleep_cache ("withings_sleep", dateStr) f.sleep
      st.last_sync_status.withings_sleep
    let st1 := { st with
        weight_cache := w.2.2.1
        sleep_cache := s.2.2.1
        bp_cache := b.2.2.1
        hr_cache := h.2.2.1
        last_sync_status := ⟨w.2.1, s.2.1, b.2.1, h.2.1⟩ }
    match AdvancedUtils.generate_health_summary npStd now w.1 b.1 h.1 s.1 with
    | Except.error e => (st1, Except.error e)
    | Except.ok summary =>
      ({ st1 with cached_summary := some summary }, Except.ok summary)
  match st.cached_summary with
  | some cached =>
    match total_seconds_sub (PyVal.dt now) cached.timestamp with
    | Except.error e => (st, Except.error e)
    | Except.ok cache_age =>
      if cache_age < 3600 then (st, Except.ok cached) else fresh
  | none => fresh

/-- The state of a freshly constructed HealthSync instance (src/main.py lines
59-69): empty caches, no recorded statuses, no metrics, no cached summary, no
active alerts. -/
def initState : HealthSyncState :=
  { weight_cache := []
    sleep_cache := []
    bp_cache := []
    hr_cache := []
    last_sync_status := ⟨none, none, none, none⟩
    latest_metrics := ⟨none, none, none, none⟩
    cached_summary := none
    active_alerts := [] }

end Main

section RetryTheorems

open Utils

/-- Shifting the attempt index by one inside the exponential-backoff delay
list. -/
theorem range_map_delay_succ (delay : ℚ) (attempt k : Nat) :
    (List.range (k + 1)).map (fun i => delay * 2 ^ (attempt + i))
      = delay * 2 ^ attempt
        :: (List.range k).map fun i => delay * 2 ^ (attempt + 1 + i) := by
  rw [List.range_succ_eq_map, List.map_cons, List.map_map]
  simp only [Nat.add_zero, Function.comp_def, Nat.succ_eq_add_one]
  congr 1
  apply List.map_congr_left
  intro i _
  have h : attempt + (i + 1) = attempt + 1 + i := by omega
  rw [h]

/-- The retry loop when the first k iterations of the suffix fail and iteration
k succeeds. -/
theorem retryAux_ok {E A : Type} (op : Nat → Except E A) (delay : ℚ) :
    ∀ (k n attempt : Nat) (last : Option E) (a : A), k < n →
      (∀ i, i < k → ∃ e, op (attempt + i) = Except.error e) →
      op (attempt + k) = Except.ok a →
      retryAux op delay attempt n last =
        (Except.ok a, k + 1,
         (List.range k).map fun i => delay * 2 ^ (attempt + i)) := by
  intro k
  induction k with
  | zero =>
    intro n attempt last a hk _ hok
    rw [Nat.add_zero] at hok
    match n, hk with
    | n + 1, _ =>
      simp [retryAux, hok]
  | succ k ih =>
    intro n attempt last a hk hfail hok
    match n, hk with
    | n + 1, hk =>
      obtain ⟨e, he⟩ := hfail 0 (Nat.succ_pos k)
      rw [Nat.add_zero] at he
      have hrec := ih n (attempt + 1) (some e) a (by omega)
        (fun i hi => by
          obtain ⟨e', he'⟩ := hfail (i + 1) (by omega)
          exact ⟨e', by rw [← he']; congr 1; omega⟩)
        (by rw [← hok]; congr 1; omega)
      have hn : ¬ (n = 0) := by omega
      simp only [retryAux, he, hrec, hn, if_false]
      rw [range_map_delay_succ]

/-- The retry loop when every iteration of the suffix fails: the last raised
exception is re-raised, and a sleep is recorded after every failure but the
last. -/
theorem retryAux_err {E A : Type} (op : Nat → Except E A) (delay : ℚ)
    (g : Nat → E) :
    ∀ (n attempt : Nat) (last : Option E),
      (∀ i, i < n → op (attempt + i) = Except.error (g (attempt + i))) →
      retryAux op delay attempt n last =
        (Except.error (if n = 0 then last else some (g (attempt + n - 1))), n,
         (List.range (n - 1)).map fun i => delay * 2 ^ (attempt + i)) := by
  intro n
  induction n with
  | zero => intro attempt last _; simp [retryAux]
  | succ n ih =>
    intro attempt last hfail
    have h0 := hfail 0 (Nat.succ_pos n)
    rw [Nat.add_zero] at h0
    have hrec := ih (attempt + 1) (some (g attempt)) (fun i hi => by
      have h := hfail (i + 1) (by omega)
      rw [show attempt + (i + 1) = attempt + 1 + i from by omega] at h
      exact h)
    by_cases hn : n = 0
    · subst hn
      simp [retryAux, h0, hrec]
    · simp only [retryAux, h0, hrec, hn, if_false]
      have h1 : attempt + 1 + n - 1 = attempt + (n + 1) - 1 := by omega
      have h2 : Nat.succ n ≠ 0 := by omega
      simp only [h1, h2, if_false]
      simp only [Prod.mk.injEq]
      refine ⟨trivial, trivial, ?_⟩
      obtain ⟨m, rfl⟩ : ∃ m, n = m + 1 := ⟨n - 1, by omega⟩
      rw [show m + 1 + 1 - 1 = m + 1 from by omega,
        show m + 1 - 1 = m from by omega]
      rw [range_map_delay_succ]

/-- Claim C2: retry_on_exception(retries, delay) returns the first success
after exactly k+1 invocations when the operation fails exactly k < retries
times first (sleeping delay * 2 ^ attempt after failed attempt number attempt),
and when every invocation fails it invokes the operation exactly retries times,
sleeps after each failed attempt except the last, and re-raises the last
exception. -/
theorem retry_on_exception_spec {E A : Type} (op : Nat → Except E A)
    (retries : Nat) (delay : ℚ) (hr : 1 ≤ retries) :
    (∀ (k : Nat) (a : A), k < retries →
        (∀ i, i < k → ∃ e, op i = Except.error e) →
        op k = Except.ok a →
        retry_on_exception op retries delay =
          (Except.ok a, k + 1, (List.range k).map fun i => delay * 2 ^ i)) ∧
    (∀ g : Nat → E, (∀ i, i < retries → op i = Except.error (g i)) →
        retry_on_exception op retries delay =
          (Except.error (some (g (retries - 1))), retries,
           (List.range (retries - 1)).map fun i => delay * 2 ^ i)) := by
  constructor
  · intro k a hk hfail hok
    have h := retryAux_ok op delay k retries 0 none a hk
      (fun i hi => by simpa using hfail i hi) (by simpa using hok)
    simpa [retry_on_exception] using h
  · intro g hfail
    have h := retryAux_err op delay g retries 0 none
      (fun i hi => by simpa using hfail i hi)
    have hne : ¬ (retries = 0) := by omega
    simpa [retry_on_exception, hne] using h

/-- Witness for C2: an operation failing twice then succeeding, under the
program's parameters retries = 3, delay = 1, returns the success value after 3
invocations with backoff sleeps of 1 and 2 seconds. -/
theorem retry_on_exception_spec_witness :
    Utils.retry_on_exception
        (fun i => if i < 2 then (Except.error "transient" : Except String Nat)
          else Except.ok 7) 3 1
      = (Except.ok 7, 3, (List.range 2).map fun i => (1 : ℚ) * 2 ^ i) := by
  exact (retry_on_exception_spec
      (fun i => if i < 2 then (Except.error "transient" : Except String Nat)
        else Except.ok 7) 3 1 (by norm_num)).1 2 7 (by norm_num)
    (fun i hi => ⟨"transient", by interval_cases i <;> rfl⟩) (by rfl)

end RetryTheorems

section RateLimiterTheorems

open Utils

/-- Claim C10 (amended): an acquisition first discards timestamps at least 60
seconds old; below the limit it proceeds without waiting; at the limit it
sleeps 60 - timedelta-seconds(now - oldest) seconds, where the elapsed time is
truncated to whole seconds before the subtraction (Python timedelta.seconds).
Sources whose fetches carry their own decorator instance never affect each
other, but omron_bp and omron_hr share the single limiter decorating
OmronHandler._make_request, so an acquisition for one updates the very
timestamp sequence the other consults. -/
theorem rate_limiter_acquire_spec (st : RateLimiterState) (now : Int)
    (hmono : ∀ t ∈ st.calls, t ≤ now) :
    ((RateLimiter.acquire st now).1.calls
        = (st.calls.filter fun t => now - t < 60 * usecPerSec) ++ [now]) ∧
    ((RateLimiter.acquire st now).1.calls_per_minute = st.calls_per_minute) ∧
    ((st.calls.filter fun t => now - t < 60 * usecPerSec).length
          < st.calls_per_minute →
        (RateLimiter.acquire st now).2 = 0) ∧
    (∀ t0 ts, (st.calls.filter fun t => now - t < 60 * usecPerSec) = t0 :: ts →
        st.calls_per_minute ≤ (t0 :: ts).length →
        (RateLimiter.acquire st now).2 = 60 - tdSeconds (now - t0)
          ∧ 0 < (RateLimiter.acquire st now).2) ∧
    (∀ (states : LimiterId → RateLimiterState) (s s' : SourceId) (m : Int),
        limiterOf s ≠ limiterOf s' →
        (RateLimiter.acquireFor states s m).1 (limiterOf s')
          = states (limiterOf s')) ∧
    (limiterOf SourceId.omron_bp = limiterOf SourceId.omron_hr) ∧
    (∀ (states : LimiterId → RateLimiterState) (m : Int),
        (RateLimiter.acquireFor states SourceId.omron_bp m).1
            (limiterOf SourceId.omron_hr)
          = (RateLimiter.acquire (states (limiterOf SourceId.omron_bp)) m).1) := by
  refine ⟨rfl, rfl, ?_, ?_, ?_, rfl, ?_⟩
  · intro hlt
    have hc : ¬ (st.calls_per_minute
        ≤ (st.calls.filter fun t => now - t < 60 * usecPerSec).length) := by
      omega
    simp [RateLimiter.acquire, hc]
  · intro t0 ts hk hlim
    have ht0mem : t0 ∈ st.calls.filter fun t => now - t < 60 * usecPerSec := by
      rw [hk]; exact List.mem_cons_self t0 ts
    have ht0calls : t0 ∈ st.calls := List.mem_of_mem_filter ht0mem
    have ht0new : now - t0 < 60 * usecPerSec := by
      have := List.of_mem_filter ht0mem
      simpa using this
    have ht0le : t0 ≤ now := hmono t0 ht0calls
    have hslp : (1 : Int) ≤ 60 - tdSeconds (now - t0) := by
      simp only [tdSeconds, usecPerSec] at ht0new ⊢
      omega
    simp only [RateLimiter.acquire, hk, hlim, if_true]
    have hpos2 : (0 : Int) < 60 - tdSeconds (now - t0) := by omega
    simp [hpos2]
  · intro states s s' m hss
    simp [RateLimiter.acquireFor, Ne.symm hss]
  · intro states m
    simp [RateLimiter.acquireFor, limiterOf]

/-- Witness for C10's amended theorem: a fresh limiter (limit 30, no recorded
calls) acquires without waiting and records the call instant. -/
theorem rate_limiter_acquire_spec_witness :
    ((Utils.RateLimiter.acquire ⟨30, []⟩ 1000000).1.calls
        = (([] : List Int).filter fun t => 1000000 - t < 60 * Utils.usecPerSec)
          ++ [1000000])
      ∧ (Utils.RateLimiter.acquire ⟨30, []⟩ 1000000).2 = 0 := by
  have h := rate_limiter_acquire_spec ⟨30, []⟩ 1000000 (by simp)
  exact ⟨h.1, h.2.2.1 (by simp)⟩

/-- Counterexample to C10 as stated, in two parts.  Truncation: with limit 1
and one call recorded 59.5 seconds ago, the code sleeps 1 whole second
(timedelta.seconds truncates 59.5 to 59), whereas the claimed suspension
60 - (now - oldest) is half a second.  Cross-source interference: an
acquisition for omron_bp changes the timestamp sequence omron_hr consults,
because both sources share the limiter decorating _make_request. -/
theorem rate_limiter_claim_counterexample :
    ((Utils.RateLimiter.acquire ⟨1, [0]⟩ 59500000).2 = 1
      ∧ (60 : ℚ) - (59500000 : ℚ) / (1000000 : ℚ) = 1 / 2
      ∧ ((1 : ℚ) ≠ 1 / 2))
      ∧ ((Utils.RateLimiter.acquireFor (fun _ => ⟨30, []⟩)
            SourceId.omron_bp 7).1 (Utils.limiterOf SourceId.omron_hr)
        ≠ (⟨30, []⟩ : Utils.RateLimiterState)) := by
  refine ⟨⟨by decide, by norm_num, by norm_num⟩, by decide⟩

end RateLimiterTheorems

section TrendTheorems

open AdvancedUtils

/-- What the wrapped body of analyze_weight_trend computes — the claim's
intended semantics, never reached in the program: fewer than 2 points are
neutral with magnitude 0; otherwise the first-3/last-3 change-percent formula
with the +1 and -1 thresholds; the six-point series gives change 10 and
increasing. -/
theorem analyze_weight_trend_body_spec (l : List ℚ) :
    (l.length < 2 →
        (analyze_weight_trend_body l).trend = "neutral"
          ∧ (analyze_weight_trend_body l).change_percentage = 0) ∧
    (2 ≤ l.length →
        (analyze_weight_trend_body l).change_percentage
            = (pyMean (lastN 3 l) - pyMean (l.take 3)) / pyMean (l.take 3) * 100
          ∧ (analyze_weight_trend_body l).trend
            = (if (pyMean (lastN 3 l) - pyMean (l.take 3)) / pyMean (l.take 3)
                  * 100 > 1 then "increasing"
               else if (pyMean (lastN 3 l) - pyMean (l.take 3))
                  / pyMean (l.take 3) * 100 < -1 then "decreasing"
               else "stable")) ∧
    ((analyze_weight_trend_body [70, 70, 70, 77, 77, 77]).change_percentage = 10
      ∧ (analyze_weight_trend_body [70, 70, 70, 77, 77, 77]).trend
        = "increasing") := by
  refine ⟨?_, ?_, ?_⟩
  · intro h2
    by_cases he : l.isEmpty
    · simp [analyze_weight_trend_body, he]
    · simp [analyze_weight_trend_body, he, h2]
  · intro h2
    match l, h2 with
    | x :: y :: rest, _ =>
      have hlt : ¬ (rest.length + 1 + 1 < 2) := by omega
      simp [analyze_weight_trend_body, hlt]
  · have hch : (analyze_weight_trend_body
        [70, 70, 70, 77, 77, 77]).change_percentage = 10 := by
      norm_num [analyze_weight_trend_body, pyMean, lastN]
    refine ⟨hch, ?_⟩
    norm_num [analyze_weight_trend_body, pyMean, lastN]

/-- Claim C3, evaluated at the failing input: the decorated
analyze_weight_trend raises TypeError on every series — lru_cache hashes the
unhashable list argument before the body runs — including on the claim's
six-point series; the wrapped body (dead code in the program) would compute
exactly the claimed results there: change 10 with trend increasing, and
neutral with magnitude 0 on a one-point series. -/
theorem analyze_weight_trend_unhashable :
    (∀ l : List ℚ, analyze_weight_trend l
        = Except.error "TypeError: unhashable type: list")
      ∧ (analyze_weight_trend_body [70, 70, 70, 77, 77, 77]).change_percentage
        = 10
      ∧ (analyze_weight_trend_body [70, 70, 70, 77, 77, 77]).trend
        = "increasing"
      ∧ (analyze_weight_trend_body [70]).trend = "neutral"
      ∧ (analyze_weight_trend_body [70]).change_percentage = 0 := by
  refine ⟨fun l => rfl, ?_, ?_, ?_, ?_⟩
  · norm_num [analyze_weight_trend_body, pyMean, lastN]
  · norm_num [analyze_weight_trend_body, pyMean, lastN]
  · simp [analyze_weight_trend_body]
  · simp [analyze_weight_trend_body]

/-- Claim C4: on a blood-pressure series of at least 2 readings, the trend is
concerning when either of the recent-minus-past mean deltas exceeds 10 in
absolute value, notable above 5, else stable, with reported magnitude the
larger absolute delta; the series with systolic 120,120,120,140,140,140 and
constant diastolic 80 has sys_change 20 and trend concerning. -/
theorem analyze_blood_pressure_trend_spec (l : List BpValue)
    (h2 : 2 ≤ l.length) :
    ((analyze_blood_pressure_trend l).trend
        = (if abs (pyMean (lastN 3 (l.map (·.systolic)))
                - pyMean ((l.map (·.systolic)).take 3)) > 10
              ∨ abs (pyMean (lastN 3 (l.map (·.diastolic)))
                - pyMean ((l.map (·.diastolic)).take 3)) > 10
           then "concerning"
           else if abs (pyMean (lastN 3 (l.map (·.systolic)))
                - pyMean ((l.map (·.systolic)).take 3)) > 5
              ∨ abs (pyMean (lastN 3 (l.map (·.diastolic)))
                - pyMean ((l.map (·.diastolic)).take 3)) > 5
           then "notable"
           else "stable")) ∧
    ((analyze_blood_pressure_trend l).change_percentage
        = max (abs (pyMean (lastN 3 (l.map (·.systolic)))
                - pyMean ((l.map (·.systolic)).take 3)))
              (abs (pyMean (lastN 3 (l.map (·.diastolic)))
                - pyMean ((l.map (·.diastolic)).take 3)))) ∧
    (pyMean (lastN 3 (([⟨120, 80⟩, ⟨120, 80⟩, ⟨120, 80⟩,
          ⟨140, 80⟩, ⟨140, 80⟩, ⟨140, 80⟩] : List BpValue).map (·.systolic)))
        - pyMean ((([⟨120, 80⟩, ⟨120, 80⟩, ⟨120, 80⟩,
          ⟨140, 80⟩, ⟨140, 80⟩, ⟨140, 80⟩] : List BpValue).map (·.systolic)).take 3)
        = 20) ∧
    ((analyze_blood_pressure_trend [⟨120, 80⟩, ⟨120, 80⟩, ⟨120, 80⟩,
          ⟨140, 80⟩, ⟨140, 80⟩, ⟨140, 80⟩]).trend = "concerning") := by
  refine ⟨?_, ?_,
    by norm_num [pyMean, lastN],
    by norm_num [analyze_blood_pressure_trend, pyMean, lastN]⟩ <;>
  · match l, h2 with
    | x :: y :: rest, _ =>
      have hlt : ¬ (rest.length + 1 + 1 < 2) := by omega
      simp [analyze_blood_pressure_trend, hlt]

/-- Witness for C4: the reference six-point blood-pressure series is judged
concerning. -/
theorem analyze_blood_pressure_trend_spec_witness :
    (AdvancedUtils.analyze_blood_pressure_trend [⟨120, 80⟩, ⟨120, 80⟩,
        ⟨120, 80⟩, ⟨140, 80⟩, ⟨140, 80⟩, ⟨140, 80⟩]).trend = "concerning" := by
  exact (analyze_blood_pressure_trend_spec [⟨120, 80⟩, ⟨120, 80⟩, ⟨120, 80⟩,
    ⟨140, 80⟩, ⟨140, 80⟩, ⟨140, 80⟩] (by norm_num)).2.2.2

end TrendTheorems

section CacheTheorems

open AdvancedUtils

/-- Counterexample to C6 as stated: with a remote tier configured whose setex
raises, cache_data propagates the exception to the caller instead of returning
normally, and the local write never happens (the error outcome carries no
updated local tier). -/
theorem cache_data_remote_failure_counterexample :
    AdvancedUtils.cache_data
        (AdvancedUtils.RemoteWrite.raised "redis connection refused")
        ([] : List (AdvancedUtils.CacheKey × Nat)) ("withings_weight", "2026-10-12") 5
      = Except.error "redis connection refused" := rfl

/-- Claim C6 (amended): a raised remote setex propagates to the caller and
skips the local write; when the remote write succeeds, or no remote tier is
configured, the value is stored in the local cache and the call returns
normally. -/
theorem cache_data_spec {α : Type} (remote : RemoteWrite)
    (local_cache : List (CacheKey × α)) (key_data : CacheKey) (value : α) :
    (∀ e, remote = RemoteWrite.raised e →
        cache_data remote local_cache key_data value = Except.error e) ∧
    ((remote = RemoteWrite.noRemote ∨ remote = RemoteWrite.ok) →
        cache_data remote local_cache key_data value
            = Except.ok ((key_data, value) :: local_cache)
          ∧ get_cached_data ((key_data, value) :: local_cache) key_data
            = some value) := by
  constructor
  · intro e he; subst he; rfl
  · intro h
    have hlocal : get_cached_data ((key_data, value) :: local_cache) key_data
        = some value := by
      simp [get_cached_data]
    rcases h with h | h <;> subst h <;> exact ⟨rfl, hlocal⟩

/-- Witness for C6's amended theorem: a successful remote write still stores
the value locally and returns normally. -/
theorem cache_data_spec_witness :
    AdvancedUtils.cache_data AdvancedUtils.RemoteWrite.ok
        ([] : List (AdvancedUtils.CacheKey × Nat)) ("omron_bp", "2026-10-12") 7
        = Except.ok [(("omron_bp", "2026-10-12"), 7)]
      ∧ AdvancedUtils.get_cached_data [(("omron_bp", "2026-10-12"), 7)]
          ("omron_bp", "2026-10-12") = some 7 := by
  exact (cache_data_spec AdvancedUtils.RemoteWrite.ok []
    ("omron_bp", "2026-10-12") 7).2 (Or.inr rfl)

/-- Counterexample to C5 as stated: a _safe_sync call that successfully
fetches an empty list writes it to the cache, yet the next same-day call for
the same source runs the network fetch again (the cache-hit test is Python
list truthiness, and an empty list is falsy). -/
theorem safe_sync_empty_result_refetch_counterexample :
    ((Main.safe_sync 0
        ([] : List (AdvancedUtils.CacheKey × List AdvancedUtils.WeightEntry))
        ("withings_weight", "2026-10-12") (Except.ok []) none).2.2.1
      = [(("withings_weight", "2026-10-12"), [])])
      ∧ ((Main.safe_sync 1
          [(("withings_weight", "2026-10-12"),
            ([] : List AdvancedUtils.WeightEntry))]
          ("withings_weight", "2026-10-12") (Except.ok [⟨70, 0⟩]) none).2.2.2
        = true) := by
  exact ⟨rfl, rfl⟩

/-- Claim C5 (amended): after _safe_sync successfully fetches a nonempty
result on a cache miss and stores it under the (source, date) key, every
subsequent same-day call for that source returns the cached data, leaves the
cache and status untouched, and skips the network fetch. -/
theorem safe_sync_cached_idempotent {α : Type} (now now' : Int)
    (cache : List (CacheKey × List α)) (key : CacheKey) (d : List α)
    (prev prev' : Option Main.SyncStatus) (fetch2 : Except String (List α))
    (hmiss : get_cached_data cache key = none) (hne : d ≠ []) :
    (Main.safe_sync now cache key (Except.ok d) prev).1 = d
      ∧ (Main.safe_sync now cache key (Except.ok d) prev).2.1
        = some ⟨"success", now, none⟩
      ∧ (Main.safe_sync now cache key (Except.ok d) prev).2.2.1
        = (key, d) :: cache
      ∧ Main.safe_sync now' ((key, d) :: cache) key fetch2 prev'
        = (d, prev', (key, d) :: cache, false) := by
  have h1 : Main.safe_sync now cache key (Except.ok d) prev
      = (d, some ⟨"success", now, none⟩, (key, d) :: cache, true) := by
    simp [Main.safe_sync, hmiss]
  have hhit : get_cached_data ((key, d) :: cache) key = some d := by
    simp [get_cached_data]
  have hde : d.isEmpty = false := by
    cases d with
    | nil => exact absurd rfl hne
    | cons a l => rfl
  refine ⟨by rw [h1], by rw [h1], by rw [h1], ?_⟩
  simp [Main.safe_sync, hhit, hde]

/-- Witness for C5's amended theorem: a nonempty weight fetch cached on day
one is served from cache on the second call even though that fetch would have
failed. -/
theorem safe_sync_cached_idempotent_witness :
    (Main.safe_sync 10
        ([] : List (AdvancedUtils.CacheKey × List AdvancedUtils.WeightEntry))
        ("withings_weight", "2026-10-12") (Except.ok [⟨70, 10⟩]) none).2.2.1
      = [(("withings_weight", "2026-10-12"), [(⟨70, 10⟩ : AdvancedUtils.WeightEntry)])]
      ∧ Main.safe_sync 20
          [(("withings_weight", "2026-10-12"),
            [(⟨70, 10⟩ : AdvancedUtils.WeightEntry)])]
          ("withings_weight", "2026-10-12") (Except.error "withings down")
          (some ⟨"success", 10, none⟩)
        = ([⟨70, 10⟩], some ⟨"success", 10, none⟩,
           [(("withings_weight", "2026-10-12"), [(⟨70, 10⟩ : AdvancedUtils.WeightEntry)])],
           false) := by
  have h := safe_sync_cached_idempotent 10 20
    ([] : List (AdvancedUtils.CacheKey × List AdvancedUtils.WeightEntry))
    ("withings_weight", "2026-10-12") [⟨70, 10⟩] none
    (some ⟨"success", 10, none⟩) (Except.error "withings down") rfl (by simp)
  exact ⟨h.2.2.1, h.2.2.2⟩

end CacheTheorems

section SummaryTheorems

open AdvancedUtils

/-- The aggregator raises on every call, whatever the inputs: its first
analysis step invokes the lru_cache-decorated weight analyzer with a list
argument.  Shared by the claims about the aggregator, the summary cache and
the sync cycle. -/
theorem agg_raises_aux (npStd : List ℚ → ℚ) (now : Int)
    (w : List WeightEntry) (bp : List BpEntry) (hr : List HrEntry)
    (sl : List SleepEntry) :
    generate_health_summary npStd now w bp hr sl
      = Except.error "TypeError: unhashable type: list" := rfl

/-- Counterexample to C9 as stated: with an empty weight series and data in
the other three families, the call does not produce a summary omitting the
weight key while keeping the others — it raises TypeError, so no family key is
emitted at all. -/
theorem aggregator_raises_counterexample :
    AdvancedUtils.generate_health_summary (fun _ => 0) 0 []
        [⟨⟨120, 80⟩, 0⟩] [⟨60, 0⟩] [⟨"deep", 0, 3600⟩]
      = Except.error "TypeError: unhashable type: list" := rfl

/-- Claim C9 (amended): every call to the aggregator's generate_health_summary
raises TypeError — it unconditionally calls the lru_cache-decorated
analyze_weight_trend with an unhashable list — so no metrics key is ever
emitted or omitted for any family, with or without data. -/
theorem aggregator_always_raises (npStd : List ℚ → ℚ) (now : Int)
    (w : List WeightEntry) (bp : List BpEntry) (hr : List HrEntry)
    (sl : List SleepEntry) :
    generate_health_summary npStd now w bp hr sl
      = Except.error "TypeError: unhashable type: list" :=
  agg_raises_aux npStd now w bp hr sl

end SummaryTheorems

section AlertTheorems

open AdvancedUtils

/-- Counterexample to C8 as stated: a concrete cycle with a nonempty previous
active set aborts with TypeError at the summary call, before any alert list is
derived — the diff at main.py lines 199-204 never runs, no notification
decision is made, and the active set stays as it was only because the cycle
died. -/
theorem alert_cycle_aborts_counterexample :
    ((Main.sync_health_data (fun _ => 0) 0 "2026-10-12"
        ⟨Except.ok [], Except.ok [], Except.ok [], Except.ok []⟩
        { Main.initState with active_alerts := ["previous alert"] }).2
      = Except.error "TypeError: unhashable type: list")
      ∧ ((Main.sync_health_data (fun _ => 0) 0 "2026-10-12"
          ⟨Except.ok [], Except.ok [], Except.ok [], Except.ok []⟩
          { Main.initState with active_alerts := ["previous alert"] }).1.active_alerts
        = ["previous alert"]) := by
  exact ⟨rfl, rfl⟩

/-- Claim C8 (amended): no sync cycle ever reaches the alert step — every
cycle fails with TypeError at the summary call, sends no notification and
leaves the active alert set unchanged.  In the diff step itself (main.py lines
199-204, modeled in isolation), an identical derived list sends nothing and
leaves the set unchanged, while a difference replaces the set and sends a
notification exactly when the new list is nonempty. -/
theorem alert_step_unreachable_spec :
    (∀ (npStd : List ℚ → ℚ) (now : Int) (dateStr : String)
        (f : Main.FetchOutcomes) (st : Main.HealthSyncState),
        (Main.sync_health_data npStd now dateStr f st).2
            = Except.error "TypeError: unhashable type: list"
          ∧ (Main.sync_health_data npStd now dateStr f st).1.active_alerts
            = st.active_alerts) ∧
    (∀ active new_alerts : List String, new_alerts = active →
        Main.update_alerts active new_alerts = (active, false)) ∧
    (∀ active new_alerts : List String, new_alerts ≠ active →
        (Main.update_alerts active new_alerts).1 = new_alerts
          ∧ ((Main.update_alerts active new_alerts).2 = true
            ↔ new_alerts ≠ [])) := by
  refine ⟨?_, ?_, ?_⟩
  · intro npStd now dateStr f st
    constructor
    · simp [Main.sync_health_data, agg_raises_aux]
    · simp [Main.sync_health_data, agg_raises_aux]
  · intro active new_alerts h
    simp [Main.update_alerts, h]
  · intro active new_alerts h
    refine ⟨by simp [Main.update_alerts, h], ?_⟩
    simp only [Main.update_alerts, Main.send_alert_notifications, h,
      if_true, ne_eq, not_false_eq_true, if_pos]
    cases new_alerts <;> simp

/-- Witness for C8's amended theorem: a concrete cycle aborts with the
TypeError, and in the isolated diff step a derived singleton differing from
the empty previous set replaces the set with the notification condition
reducing to nonemptiness. -/
theorem alert_step_unreachable_spec_witness :
    ((Main.sync_health_data (fun _ => 0) 0 "2026-10-12"
        ⟨Except.ok [], Except.ok [], Except.ok [], Except.ok []⟩
        Main.initState).2
      = Except.error "TypeError: unhashable type: list")
      ∧ (Main.update_alerts [] ["alert a"]).1 = ["alert a"]
      ∧ ((Main.update_alerts [] ["alert a"]).2 = true
        ↔ (["alert a"] : List String) ≠ []) := by
  exact ⟨(alert_step_unreachable_spec.1 (fun _ => 0) 0 "2026-10-12"
      ⟨Except.ok [], Except.ok [], Except.ok [], Except.ok []⟩
      Main.initState).1,
    (alert_step_unreachable_spec.2.2 [] ["alert a"] (by simp)).1,
    (alert_step_unreachable_spec.2.2 [] ["alert a"] (by simp)).2⟩

end AlertTheorems

section SummaryCacheTheorems

/-- Claim C7: HealthSync.generate_health_summary can never serve or store a
cached summary.  The cached_summary field is unchanged by every call — the
only branch that would populate it needs the aggregator to return, and the
aggregator raises TypeError on every call — and every call finding no cached
summary (the only reachable situation; a fresh instance starts with None)
propagates that TypeError instead of returning a summary. -/
theorem summary_cache_never_populated :
    (∀ (npStd : List ℚ → ℚ) (now : Int) (dateStr : String)
        (f : Main.FetchOutcomes) (st : Main.HealthSyncState),
        (Main.generate_health_summary npStd now dateStr f st).1.cached_summary
          = st.cached_summary) ∧
    (∀ (npStd : List ℚ → ℚ) (now : Int) (dateStr : String)
        (f : Main.FetchOutcomes) (st : Main.HealthSyncState),
        st.cached_summary = none →
        (Main.generate_health_summary npStd now dateStr f st).2
          = Except.error "TypeError: unhashable type: list") := by
  constructor
  · intro npStd now dateStr f st
    cases hcs : st.cached_summary with
    | none => simp [Main.generate_health_summary, hcs, agg_raises_aux]
    | some cached =>
      cases hts : Main.total_seconds_sub (AdvancedUtils.PyVal.dt now)
          cached.timestamp with
      | error e => simp [Main.generate_health_summary, hcs, hts]
      | ok cache_age =>
        by_cases hage : cache_age < 3600
        · simp [Main.generate_health_summary, hcs, hts, hage]
        · simp [Main.generate_health_summary, hcs, hts, hage, agg_raises_aux]
  · intro npStd now dateStr f st hcs
    simp [Main.generate_health_summary, hcs, agg_raises_aux]

/-- Witness for C7's theorem: the first call on a fresh instance raises the
TypeError instead of building and caching a summary. -/
theorem summary_cache_never_populated_witness :
    (Main.generate_health_summary (fun _ => 0) 0 "2026-10-12"
        ⟨Except.ok [], Except.ok [], Except.ok [], Except.ok []⟩
        Main.initState).2
      = Except.error "TypeError: unhashable type: list" := by
  exact summary_cache_never_populated.2 (fun _ => 0) 0 "2026-10-12"
    ⟨Except.ok [], Except.ok [], Except.ok [], Except.ok []⟩
    Main.initState rfl

end SummaryCacheTheorems

section CycleTheorems

open AdvancedUtils

/-- Claim C1, evaluated at the failing input: a cycle from a fresh instance in
which only the blood-pressure fetch fails.  The per-source fetch layer behaves
as claimed — _safe_sync swallows the failure, records an error status with the
detail for omron_bp and success statuses for the other three — but the cycle
then aborts with TypeError at the summary call (the aggregator invokes the
lru_cache-decorated analyze_weight_trend with a list), so no HealthSummary is
produced and the cycle does not complete. -/
theorem one_source_failure_cycle_aborts :
    ((Main.sync_health_data (fun _ => 0) 5 "2026-10-12"
        ⟨Except.ok [⟨70, 0⟩], Except.ok [⟨"deep", 0, 3600⟩],
         Except.error "omron down", Except.ok [⟨60, 0⟩]⟩
        Main.initState).2
      = Except.error "TypeError: unhashable type: list")
      ∧ (Main.statusOf
          (Main.sync_health_data (fun _ => 0) 5 "2026-10-12"
            ⟨Except.ok [⟨70, 0⟩], Except.ok [⟨"deep", 0, 3600⟩],
             Except.error "omron down", Except.ok [⟨60, 0⟩]⟩
            Main.initState).1.last_sync_status SourceId.omron_bp
        = some ⟨"error", 5, some "omron down"⟩)
      ∧ (Main.statusOf
          (Main.sync_health_data (fun _ => 0) 5 "2026-10-12"
            ⟨Except.ok [⟨70, 0⟩], Except.ok [⟨"deep", 0, 3600⟩],
             Except.error "omron down", Except.ok [⟨60, 0⟩]⟩
            Main.initState).1.last_sync_status SourceId.withings_weight
        = some ⟨"success", 5, none⟩)
      ∧ (Main.statusOf
          (Main.sync_health_data (fun _ => 0) 5 "2026-10-12"
            ⟨Except.ok [⟨70, 0⟩], Except.ok [⟨"deep", 0, 3600⟩],
             Except.error "omron down", Except.ok [⟨60, 0⟩]⟩
            Main.initState).1.last_sync_status SourceId.withings_sleep
        = some ⟨"success", 5, none⟩)
      ∧ (Main.statusOf
          (Main.sync_health_data (fun _ => 0) 5 "2026-10-12"
            ⟨Except.ok [⟨70, 0⟩], Except.ok [⟨"deep", 0, 3600⟩],
             Except.error "omron down", Except.ok [⟨60, 0⟩]⟩
            Main.initState).1.last_sync_status SourceId.omron_hr
        = some ⟨"success", 5, none⟩) := by
  exact ⟨rfl, rfl, rfl, rfl, rfl⟩

end CycleTheorems
